import Mathlib

set_option maxRecDepth 100000

/-!
Shallow embedding of `src/scc/drivers/evdevdrv.py` (sc-controller evdev driver).

Conventions of the embedding:
* Python machine integers are `Int`; Python floats are modelled as exact
  rationals (`PyFloat`, an integer fraction).  Every quantity the claims
  below compare is either exactly representable or separated from the claimed
  value by an integral amount far larger than any double-rounding error, so
  the idealisation is harmless.
* Python `int()` (truncation towards zero) is `pyInt`.
* Python dictionaries are association lists with assignment implemented as
  `insertA` (replace the binding for the key) and deletion as `eraseA`.
* Exceptions that the source lets propagate are modelled with `Except`;
  a `try/except: pass` around an entry is modelled by skipping the entry.
-/

namespace EvdevDrv

/-- Modelled from the spec: `STICK_PAD_MAX` is imported from `scc.constants`,
which is not among the provided sources.  The spec gives the stick/pad
canonical range as `[-STICK_PAD_MAX, STICK_PAD_MAX]`; we use the 16-bit
signed bound 32767 as the concrete positive value. -/
def STICK_PAD_MAX : Int := 32767

/-- Modelled from the spec: `TRIGGER_MAX` is imported from `scc.constants`,
which is not among the provided sources.  The spec gives the trigger
canonical range as `[0, TRIGGER_MAX]`; we use the 8-bit bound 255. -/
def TRIGGER_MAX : Int := 255

/-- Modelled from the spec: `SCButtons` lives in `scc.constants`, outside the
provided sources.  The spec describes it as an enumeration of logical button
flags forming a bitmask; the driver only uses `getattr(SCButtons, name)`,
which fails for unknown names.  A small table of distinct flag bits suffices. -/
def scButtons : String → Option Int
  | "A" => some 1
  | "B" => some 2
  | "X" => some 4
  | "Y" => some 8
  | "LB" => some 16
  | "RB" => some 32
  | "START" => some 64
  | "BACK" => some 128
  | _ => none

/-- `EvdevControllerInput` named tuple: the immutable controller state
snapshot with nine fields. -/
structure ControllerInput where
  buttons : Int
  ltrig : Int
  rtrig : Int
  stick_x : Int
  stick_y : Int
  lpad_x : Int
  lpad_y : Int
  rpad_x : Int
  rpad_y : Int
deriving DecidableEq

/-- `EvdevControllerInput._fields`, in declaration order. -/
def inputFields : List String :=
  ["buttons", "ltrig", "rtrig", "stick_x", "stick_y", "lpad_x", "lpad_y",
   "rpad_x", "rpad_y"]

/-- `new_state._replace(**{field : value})`: structural replacement of one
named field.  Names outside `inputFields` leave the snapshot unchanged
(the source only calls this for names checked against `_fields`). -/
def setField (st : ControllerInput) (f : String) (v : Int) : ControllerInput :=
  if f = "buttons" then { st with buttons := v }
  else if f = "ltrig" then { st with ltrig := v }
  else if f = "rtrig" then { st with rtrig := v }
  else if f = "stick_x" then { st with stick_x := v }
  else if f = "stick_y" then { st with stick_y := v }
  else if f = "lpad_x" then { st with lpad_x := v }
  else if f = "lpad_y" then { st with lpad_y := v }
  else if f = "rpad_x" then { st with rpad_x := v }
  else if f = "rpad_y" then { st with rpad_y := v }
  else st

/-- Read one named field of the snapshot (0 for unknown names). -/
def getField (st : ControllerInput) (f : String) : Int :=
  if f = "buttons" then st.buttons
  else if f = "ltrig" then st.ltrig
  else if f = "rtrig" then st.rtrig
  else if f = "stick_x" then st.stick_x
  else if f = "stick_y" then st.stick_y
  else if f = "lpad_x" then st.lpad_x
  else if f = "lpad_y" then st.lpad_y
  else if f = "rpad_x" then st.rpad_x
  else if f = "rpad_y" then st.rpad_y
  else 0

/-- `EvdevControllerInput( *[0] * len(EvdevControllerInput._fields) )`:
the all-zero snapshot installed by `EvdevController.__init__`. -/
def initState : ControllerInput := ⟨0, 0, 0, 0, 0, 0, 0, 0, 0⟩

/-- Exact rational value of a Python float, as an (unnormalized) integer
fraction.  Every float in this driver arises from integer config values by
one division, one multiplication and one addition, so denominators stay tiny
and the exact-rational idealisation of IEEE doubles is harmless here: every
claim below either compares exactly representable quantities or quantities
separated by an integral gap far larger than any double-rounding error. -/
structure PyFloat where
  num : Int
  den : Int
deriving DecidableEq

namespace PyFloat

/-- Embed an integer (`float(n)`). -/
def ofInt (n : Int) : PyFloat := ⟨n, 1⟩

/-- Exact float division `a / b`. -/
def div (a b : PyFloat) : PyFloat := ⟨a.num * b.den, a.den * b.num⟩

/-- Exact float multiplication `a * b`. -/
def mul (a b : PyFloat) : PyFloat := ⟨a.num * b.num, a.den * b.den⟩

/-- Exact float addition `a + b`. -/
def add (a b : PyFloat) : PyFloat :=
  ⟨a.num * b.den + b.num * a.den, a.den * b.den⟩

end PyFloat

/-- `AxisCalibrationData` named tuple: `scale`, `offset` (floats) and
`center` (the raw dead-zone bound, an integer from the config). -/
structure AxisCalibrationData where
  scale : PyFloat
  offset : PyFloat
  center : Int
deriving DecidableEq

/-- One value of the `axes` section of a device config: the dictionary
`{"axis": ..., "min": ..., "max": ..., "center": ...}`, each field optional
(`value.get` with a default in the source). -/
structure AxisEntry where
  axis : Option String
  min : Option Int
  max : Option Int
  center : Option Int
deriving DecidableEq

/-- A parsed JSON device config: the `buttons` and `axes` sections.  Keys of
both dictionaries are arbitrary strings in JSON; `some n` records a key that
Python `int()` accepts (with value `n`) and `none` a key it rejects. -/
structure DeviceConfig where
  buttons : List (Option Int × String)
  axes : List (Option Int × AxisEntry)
deriving DecidableEq

/-- Association-list lookup, modelling Python dictionary access. -/
def lookupA {κ α : Type} [DecidableEq κ] : List (κ × α) → κ → Option α
  | [], _ => none
  | (k', v) :: t, k => if k = k' then some v else lookupA t k

/-- Remove the binding for a key, modelling `del d[k]`. -/
def eraseA {κ α : Type} [DecidableEq κ] : List (κ × α) → κ → List (κ × α)
  | [], _ => []
  | (k', v) :: t, k => if k' = k then eraseA t k else (k', v) :: eraseA t k

/-- Dictionary assignment `d[k] = v`. -/
def insertA {κ α : Type} [DecidableEq κ] (l : List (κ × α)) (k : κ) (v : α) :
    List (κ × α) :=
  (k, v) :: eraseA l k

/-- The `buttons` loop of `_parse_config`: each entry is wrapped in
`try: ... except: pass`, so a key `int()` rejects or a name `SCButtons`
lacks skips just that entry. -/
def parseButtons : List (Option Int × String) → List (Int × Int) →
    List (Int × Int)
  | [], acc => acc
  | (k, v) :: rest, acc =>
    match k, scButtons v with
    | some keycode, some sc => parseButtons rest (insertA acc keycode sc)
    | _, _ => parseButtons rest acc

/-- The `axes` loop of `_parse_config`.  There is no `try` here: a key that
`int()` rejects raises `ValueError` out of the whole parse, and a degenerate
range (`min == max` falls into the `max > min else` branch, whose scale is
`-2.0 / (min - max)`) raises `ZeroDivisionError`.  Entries whose `axis` name
is not an `EvdevControllerInput` field are skipped.  The accumulator carries
`(_evdev_to_axis, _calibrations)`. -/
def parseAxes : List (Option Int × AxisEntry) →
    List (Int × String) × List (Int × AxisCalibrationData) →
    Except String (List (Int × String) × List (Int × AxisCalibrationData))
  | [], acc => Except.ok acc
  | (k, v) :: rest, acc =>
    match k with
    | none => Except.error "ValueError"
    | some code =>
      match v.axis with
      | none => parseAxes rest acc
      | some axis =>
        if axis ∈ inputFields then
          let mn : Int := v.min.getD (-127)
          let mx : Int := v.max.getD 128
          let ct : Int := v.center.getD 0
          let scale := PyFloat.div (PyFloat.ofInt (-2)) (PyFloat.ofInt (mn - mx))
          if axis = "ltrig" ∨ axis = "rtrig" then
            if mx > mn then
              parseAxes rest (insertA acc.1 code axis,
                insertA acc.2 code ⟨scale, PyFloat.ofInt (-3), mn⟩)
            else if mn = mx then Except.error "ZeroDivisionError"
            else
              parseAxes rest (insertA acc.1 code axis,
                insertA acc.2 code ⟨scale, PyFloat.ofInt 1, mx⟩)
          else
            if mx > mn then
              parseAxes rest (insertA acc.1 code axis,
                insertA acc.2 code ⟨scale, PyFloat.ofInt (-1), ct⟩)
            else if mn = mx then Except.error "ZeroDivisionError"
            else
              parseAxes rest (insertA acc.1 code axis,
                insertA acc.2 code ⟨scale, PyFloat.ofInt 1, ct⟩)
        else parseAxes rest acc

/-- The three tables built by `_parse_config`. -/
structure ParsedConfig where
  evdev_to_button : List (Int × Int)
  evdev_to_axis : List (Int × String)
  calibrations : List (Int × AxisCalibrationData)
deriving DecidableEq

/-- `EvdevController._parse_config`: buttons first (never fails), then axes
(any uncaught exception aborts the whole parse and hence the attach). -/
def _parse_config (cfg : DeviceConfig) : Except String ParsedConfig :=
  let btns := parseButtons cfg.buttons []
  match parseAxes cfg.axes ([], []) with
  | Except.error e => Except.error e
  | Except.ok (axes, cals) => Except.ok ⟨btns, axes, cals⟩

/-- Python `int()` applied to a float: truncation towards zero
(`Int.tdiv` truncates towards zero for every sign combination). -/
def pyInt (q : PyFloat) : Int := Int.tdiv q.num q.den

/-- The calibrated integer value of a raw axis sample, before the dead-zone
test: `int((float(event.value) * cal.scale + cal.offset) * STICK_PAD_MAX)`. -/
def calibratedRaw (cal : AxisCalibrationData) (raw : Int) : Int :=
  pyInt (PyFloat.mul
    (PyFloat.add (PyFloat.mul (PyFloat.ofInt raw) cal.scale) cal.offset)
    (PyFloat.ofInt STICK_PAD_MAX))

/-- Full per-sample axis transform including the dead-zone test
`if value >= -cal.center and value <= cal.center: value = 0`. -/
def axisValue (cal : AxisCalibrationData) (raw : Int) : Int :=
  let value := calibratedRaw cal raw
  if value ≥ -cal.center ∧ value ≤ cal.center then 0 else value

/-- Raw evdev event kinds the driver distinguishes (`EV_KEY`, `EV_ABS`,
anything else). -/
inductive EventType
  | key
  | abs
  | other
deriving DecidableEq

/-- One raw evdev event `(type, code, value)`. -/
structure Event where
  type : EventType
  code : Int
  value : Int
deriving DecidableEq

/-- One iteration of the event loop in `EvdevController.input`.  The Bool
component records whether any `_replace` has run, i.e. whether
`new_state is not self._state` at the end of the batch.  The calibration
lookup mirrors `self._calibrations[event.code]`; `_parse_config` always
populates `_calibrations` and `_evdev_to_axis` together, so the `none`
calibration branch is unreachable on parsed configs. -/
def applyEvent (btnMap : List (Int × Int)) (axMap : List (Int × String))
    (cals : List (Int × AxisCalibrationData))
    (sc : ControllerInput × Bool) (ev : Event) : ControllerInput × Bool :=
  let st := sc.1
  let changed := sc.2
  match ev.type with
  | EventType.key =>
    match lookupA btnMap ev.code with
    | some b =>
      if ev.value ≠ 0 then (setField st "buttons" (Int.lor st.buttons b), true)
      else (setField st "buttons" (Int.land st.buttons (Int.lnot b)), true)
    | none => (st, changed)
  | EventType.abs =>
    match lookupA axMap ev.code with
    | some axis =>
      match lookupA cals ev.code with
      | some cal => (setField st axis (axisValue cal ev.value), true)
      | none => (st, changed)
    | none => (st, changed)
  | EventType.other => (st, changed)

/-- The event-folding part of `EvdevController.input`: drain a batch of
events, starting from the current snapshot with no change recorded. -/
def translate (pc : ParsedConfig) (st : ControllerInput) (events : List Event) :
    ControllerInput × Bool :=
  events.foldl (applyEvent pc.evdev_to_button pc.evdev_to_axis pc.calibrations)
    (st, false)

/-- One step of the bitwise (reflected, polynomial 0xEDB88320) CRC-32 used by
`binascii.crc32`: fold one byte into the running remainder. -/
def crc32Byte (c : Nat) (b : Nat) : Nat :=
  (List.range 8).foldl
    (fun c _ => if c % 2 = 1 then Nat.xor (c / 2) 0xEDB88320 else c / 2)
    (Nat.xor c b)

/-- `binascii.crc32` over a byte list, as an unsigned 32-bit value. -/
def crc32 (bytes : List Nat) : Nat :=
  Nat.xor (bytes.foldl crc32Byte 0xFFFFFFFF) 0xFFFFFFFF

/-- Python 2's `binascii.crc32` returns the checksum as a signed 32-bit int. -/
def crc32Signed (bytes : List Nat) : Int :=
  let c := crc32 bytes
  if c ≥ 2 ^ 31 then (c : Int) - 2 ^ 32 else (c : Int)

/-- Bytes of an ASCII string (device names in scope here are ASCII). -/
def strBytes (s : String) : List Nat := s.data.map Char.toNat

/-- Python 2 `hex()` of an int: `0x` prefix, lowercase digits, a leading `-`
for negative values. -/
def pyHex (i : Int) : String :=
  if i < 0 then "-0x" ++ String.mk (Nat.toDigits 16 i.natAbs)
  else "0x" ++ String.mk (Nat.toDigits 16 i.toNat)

/-- Python `str.strip(chars)`: drop characters of the set from both ends. -/
def stripChars (cs : List Char) (s : List Char) : List Char :=
  ((s.dropWhile (fun c => c ∈ cs)).reverse.dropWhile (fun c => c ∈ cs)).reverse

/-- Python `str.upper()` on ASCII text (character-by-character upcasing). -/
def pyUpper (s : String) : String := String.mk (s.data.map Char.toUpper)

/-- One candidate identity:
`"ev%s" % (hex(crc32("%s%s" % (name, magic))).upper().strip("-0X"),)`. -/
def mkId (name : String) (magic : Nat) : String :=
  let crc := crc32Signed (strBytes (name ++ toString magic))
  "ev" ++ String.mk (stripChars ['-', '0', 'X'] ((pyUpper (pyHex crc)).data))

/-- The probing loop of `EvdevController._generate_id`: starting from
`magic_number`, return the first candidate not in `used`.  The source loop
has no bound; `fuel` makes the recursion structural, and `none` stands for
exceeding it (never hit at the call sites below). -/
def _generate_id (name : String) (used : Finset String) :
    Nat → Nat → Option String
  | 0, _ => none
  | fuel + 1, magic =>
    let id := mkId name magic
    if id ∈ used then _generate_id name used fuel (magic + 1) else some id

/-- An attached `EvdevController` wrapper: its generated identity, parsed
config tables and current state snapshot. -/
structure EvController where
  id : String
  cfg : ParsedConfig
  state : ControllerInput
deriving DecidableEq

/-- The driver-global mutable state: `_devices` (device path → wrapper) and
`_used_ids`. -/
structure DriverState where
  devices : List (String × EvController)
  usedIds : Finset String
deriving DecidableEq

/-- Calls made on the daemon collaborator. -/
inductive DaemonEvent
  | addController (id : String)
  | removeController (id : String)
deriving DecidableEq

/-- The empty driver state (`EvdevDriver.__init__`). -/
def emptyDriver : DriverState := { devices := [], usedIds := ∅ }

/-- `EvdevDriver.handle_new_device` together with the wrapper construction it
performs (`EvdevController.__init__`): generate an identity (adding it to
`_used_ids`), install the all-zero snapshot, store the wrapper under the
device path and call `daemon.add_controller`.  `none` only when the identity
probe exceeds its fuel. -/
def attachDevice (s : DriverState) (fn name : String) (cfg : ParsedConfig)
    (fuel : Nat) : Option (DriverState × EvController × List DaemonEvent) :=
  match _generate_id name s.usedIds fuel 0 with
  | none => none
  | some id =>
    let c : EvController := { id := id, cfg := cfg, state := initState }
    some ({ devices := insertA s.devices fn c, usedIds := insert id s.usedIds },
      c, [DaemonEvent.addController id])

/-- `EvdevDriver.device_removed`: if the device path is in the table, delete
its entry, call `daemon.remove_controller`, discard its identity and close
the device (third component lists the device paths closed); otherwise do
nothing at all. -/
def device_removed (s : DriverState) (fn : String) :
    DriverState × List DaemonEvent × List String :=
  match lookupA s.devices fn with
  | some c =>
    ({ devices := eraseA s.devices fn, usedIds := s.usedIds.erase c.id },
      [DaemonEvent.removeController c.id], [fn])
  | none => (s, [], [])

/-- The per-controller part of `EvdevController.input` on a successful read:
fold the batch, and if `new_state is not self._state` install the new
snapshot and emit the `(old, new)` pair for `mapper.input`. -/
def inputOk (c : EvController) (events : List Event) :
    EvController × Option (ControllerInput × ControllerInput) :=
  let r := translate c.cfg c.state events
  if r.2 then ({ c with state := r.1 }, some (c.state, r.1)) else (c, none)

/-- Everything observable from one poller callback `EvdevController.input`:
the driver state, the calls on the daemon, the devices closed, and the
notification passed to the mapping engine. -/
structure CallbackResult where
  state : DriverState
  daemonEvents : List DaemonEvent
  closedDevices : List String
  mapperNotification : Option (ControllerInput × ControllerInput)
deriving DecidableEq

/-- One poller callback for device `fn`: on a successful read, fold the
events and notify the mapper on change; on an `IOError` the error is logged
and `_evdevdrv.device_removed(self.device)` runs — the read is not retried. -/
def inputCallback (s : DriverState) (fn : String)
    (res : Except Unit (List Event)) : CallbackResult :=
  match lookupA s.devices fn with
  | none => ⟨s, [], [], none⟩
  | some c =>
    match res with
    | Except.ok events =>
      let r := inputOk c events
      ⟨{ s with devices := insertA s.devices fn r.1 }, [], [], r.2⟩
    | Except.error _ =>
      let r := device_removed s fn
      ⟨r.1, r.2.1, r.2.2, none⟩

/-- The scanner's freshness test `if dev.fn not in self._devices` deciding
whether a device path counts as a new discovery. -/
def scanConsiders (s : DriverState) (fn : String) : Bool :=
  (lookupA s.devices fn).isNone

/-- Identities of the currently attached wrappers. -/
def liveIds (s : DriverState) : List String :=
  s.devices.map (fun p => p.2.id)

/-- The registry invariant: live identities are pairwise distinct and every
live identity is registered in `_used_ids`. -/
def Inv (s : DriverState) : Prop :=
  (liveIds s).Nodup ∧ ∀ p ∈ s.devices, p.2.id ∈ s.usedIds

/-- Whether an `Except` computation finished without raising. -/
def exceptOk {ε α : Type} : Except ε α → Bool
  | Except.ok _ => true
  | Except.error _ => false

/-! Concrete test data used by the claim theorems below. -/

/-- The spec's scenario config: one stick-class axis with raw range
`min = -127, max = 128, center = 0` (the source's defaults). -/
def cfgScenario : DeviceConfig :=
  { buttons := [],
    axes := [(some 0,
      { axis := some "stick_x", min := some (-127), max := some 128,
        center := some 0 })] }

/-- Calibration the source computes for the scenario axis:
`scale = -2 / (min - max) = 2/255`, `offset = -1`, `center = 0`. -/
def calScenario : AxisCalibrationData :=
  ⟨PyFloat.div (PyFloat.ofInt (-2)) (PyFloat.ofInt ((-127) - 128)),
   PyFloat.ofInt (-1), 0⟩

/-- Parse result of `cfgScenario`. -/
def pcScenario : ParsedConfig := ⟨[], [(0, "stick_x")], [(0, calScenario)]⟩

/-- A degenerate axis entry with `min = max`. -/
def cfgDegenerate : DeviceConfig :=
  { buttons := [],
    axes := [(some 7,
      { axis := some "stick_y", min := some 5, max := some 5,
        center := some 0 })] }

/-- A config whose `axes` section has one malformed (non-integer) key next to
a well-formed entry, and a well-formed button. -/
def cfgBadKey : DeviceConfig :=
  { buttons := [(some 3, "A")],
    axes := [(none,
      { axis := some "stick_x", min := some 0, max := some 255,
        center := some 0 }),
      (some 1,
      { axis := some "stick_y", min := some 0, max := some 255,
        center := some 0 })] }

/-- A trigger-class axis with `min = 0, max = 255`. -/
def cfgTrig : DeviceConfig :=
  { buttons := [],
    axes := [(some 2,
      { axis := some "ltrig", min := some 0, max := some 255,
        center := some 0 })] }

/-- Calibration the source computes for `cfgTrig`: `scale = 2/255`,
`offset = -3`, `center = min = 0`. -/
def calTrig : AxisCalibrationData :=
  ⟨PyFloat.div (PyFloat.ofInt (-2)) (PyFloat.ofInt (0 - 255)),
   PyFloat.ofInt (-3), 0⟩

/-- Parse result of `cfgTrig`. -/
def pcTrig : ParsedConfig := ⟨[], [(2, "ltrig")], [(2, calTrig)]⟩

/-- A config exercising every non-raising shape of axis entry: both
orientations, both axis classes, an unknown axis name (even degenerate) and
a missing axis name. -/
def cfgMixed : DeviceConfig :=
  { buttons := [(some 10, "A"), (none, "B"), (some 11, "NO_SUCH")],
    axes := [(some 0,
      { axis := some "stick_x", min := some (-127), max := some 128,
        center := some 0 }),
      (some 1,
      { axis := some "stick_y", min := some 200, max := some 10,
        center := some 100 }),
      (some 2,
      { axis := some "ltrig", min := some 0, max := some 255,
        center := some 0 }),
      (some 3,
      { axis := some "rtrig", min := some 255, max := some 0,
        center := some 0 }),
      (some 4,
      { axis := some "whammy", min := some 5, max := some 5,
        center := some 0 }),
      (some 5, { axis := none, min := none, max := none, center := none })] }

/-! Helper lemmas about the association-list operations and the identity
probe. -/

theorem eraseA_sublist {κ α : Type} [DecidableEq κ] (l : List (κ × α))
    (k : κ) : (eraseA l k).Sublist l := by
  induction l with
  | nil => simp [eraseA]
  | cons p t ih =>
    obtain ⟨k', v⟩ := p
    by_cases h : k' = k
    · rw [eraseA, if_pos h]; exact ih.cons _
    · rw [eraseA, if_neg h]; exact ih.cons₂ _

theorem mem_of_mem_eraseA {κ α : Type} [DecidableEq κ]
    {l : List (κ × α)} {k : κ} {p : κ × α} (h : p ∈ eraseA l k) :
    p ∈ l ∧ p.1 ≠ k := by
  induction l with
  | nil => simp [eraseA] at h
  | cons q t ih =>
    obtain ⟨k', v⟩ := q
    by_cases hk : k' = k
    · rw [eraseA, if_pos hk] at h
      have := ih h
      exact ⟨List.mem_cons_of_mem _ this.1, this.2⟩
    · rw [eraseA, if_neg hk] at h
      rcases List.mem_cons.mp h with h1 | h1
      · subst h1; exact ⟨List.mem_cons_self _ _, hk⟩
      · have := ih h1
        exact ⟨List.mem_cons_of_mem _ this.1, this.2⟩

theorem lookupA_eraseA_self {κ α : Type} [DecidableEq κ]
    (l : List (κ × α)) (k : κ) : lookupA (eraseA l k) k = none := by
  induction l with
  | nil => simp [eraseA, lookupA]
  | cons p t ih =>
    obtain ⟨k', v⟩ := p
    by_cases h : k' = k
    · rw [eraseA, if_pos h]; exact ih
    · rw [eraseA, if_neg h, lookupA, if_neg (fun hk => h hk.symm)]
      exact ih

theorem lookupA_mem {κ α : Type} [DecidableEq κ]
    {l : List (κ × α)} {k : κ} {v : α} (h : lookupA l k = some v) :
    (k, v) ∈ l := by
  induction l with
  | nil => simp [lookupA] at h
  | cons p t ih =>
    obtain ⟨k', w⟩ := p
    by_cases hk : k = k'
    · rw [lookupA, if_pos hk] at h
      cases h
      subst hk
      exact List.mem_cons_self _ _
    · rw [lookupA, if_neg hk] at h
      exact List.mem_cons_of_mem _ (ih h)

theorem generate_id_not_mem {name : String} {used : Finset String} :
    ∀ {fuel magic : Nat} {id : String},
      _generate_id name used fuel magic = some id → id ∉ used := by
  intro fuel
  induction fuel with
  | zero => intro magic id h; cases h
  | succ n ih =>
    intro magic id h
    rw [_generate_id] at h
    by_cases hm : mkId name magic ∈ used
    · rw [if_pos hm] at h
      exact ih h
    · rw [if_neg hm] at h
      cases h
      exact hm

/-- A non-raising axis entry: its key parses as an integer, and if its axis
name is a recognized snapshot field then its raw range is non-degenerate. -/
def axisEntrySafe (p : Option Int × AxisEntry) : Bool :=
  p.1.isSome &&
    (match p.2.axis with
     | none => true
     | some a =>
       decide (a ∉ inputFields) ||
         decide (p.2.min.getD (-127) ≠ p.2.max.getD 128))

theorem parseAxes_ok : ∀ l : List (Option Int × AxisEntry),
    l.all axisEntrySafe = true →
    ∀ acc, exceptOk (parseAxes l acc) = true := by
  intro l
  induction l with
  | nil => intro _ acc; rfl
  | cons p rest ih =>
    intro h acc
    rw [List.all_cons, Bool.and_eq_true] at h
    obtain ⟨k, v⟩ := p
    cases k with
    | none => simp [axisEntrySafe] at h
    | some code =>
      cases hax : v.axis with
      | none =>
        rw [parseAxes]
        simp only [hax]
        exact ih h.2 acc
      | some a =>
        have h1 := h.1
        rw [axisEntrySafe] at h1
        simp only [hax, Option.isSome_some, Bool.true_and, Bool.or_eq_true,
          decide_eq_true_eq] at h1
        by_cases hin : a ∈ inputFields
        · have hne : v.min.getD (-127) ≠ v.max.getD 128 := by
            rcases h1 with h1 | h1
            · exact absurd hin h1
            · exact h1
          rw [parseAxes]
          simp only [hax, if_pos hin]
          by_cases htr : a = "ltrig" ∨ a = "rtrig"
          · rw [if_pos htr]
            by_cases hgt : v.max.getD 128 > v.min.getD (-127)
            · rw [if_pos hgt]; exact ih h.2 _
            · rw [if_neg hgt, if_neg hne]; exact ih h.2 _
          · rw [if_neg htr]
            by_cases hgt : v.max.getD 128 > v.min.getD (-127)
            · rw [if_pos hgt]; exact ih h.2 _
            · rw [if_neg hgt, if_neg hne]; exact ih h.2 _
        · rw [parseAxes]
          simp only [hax, if_neg hin]
          exact ih h.2 acc

/-- Claim C1 counterexample: the degenerate axis entry with raw
`min = max = 5` makes `_parse_config` raise (`max > min` fails, and the
inverted-orientation branch computes `-2.0 / (min - max)` with a zero
denominator), contradicting the claim that calibration parsing has no error
conditions. -/
theorem c1_min_eq_max_raises :
    _parse_config cfgDegenerate = Except.error "ZeroDivisionError" := rfl

/-- Claim C1 (amended): for every axis entry whose key parses as an integer
and whose raw range is non-degenerate whenever its axis name is recognized
(the `max > min` test choosing the branch, the inverted-orientation branch
otherwise), `_parse_config` produces its calibration records without
raising; the degenerate `min = max` case, by contrast, divides by zero in
the fallback branch. -/
theorem c1_calibration_total_unless_degenerate (cfg : DeviceConfig)
    (h : cfg.axes.all axisEntrySafe = true) :
    exceptOk (_parse_config cfg) = true := by
  have hax := parseAxes_ok cfg.axes h ([], [])
  rw [_parse_config]
  cases hp : parseAxes cfg.axes ([], []) with
  | error e => rw [hp] at hax; cases hax
  | ok r => obtain ⟨a, b⟩ := r; rfl

/-- Witness for C1: a config with both axis orientations, both axis classes,
an unknown axis name on a degenerate range, a missing axis name and
malformed button entries parses without raising. -/
theorem c1_witness : exceptOk (_parse_config cfgMixed) = true :=
  c1_calibration_total_unless_degenerate cfgMixed (by decide)

/-- Claim C2: evaluating the code on the spec's scenario (stick axis,
`min = -127, max = 128, center = 0`, the source's own defaults).  The parsed
calibration is `scale = 2/255, offset = -1, center = 0`, and the translator
yields `-32767` for raw sample `0` (claim says `0`), `128` for raw sample
`128` (claim says `+STICK_PAD_MAX`), and `-65405` for raw sample `-127`
(claim says `-STICK_PAD_MAX`): the constant offset `-1.0` ignores `min`, so
none of the claimed outputs is produced. -/
theorem c2_scenario_divergence :
    _parse_config cfgScenario = Except.ok pcScenario ∧
    lookupA pcScenario.calibrations 0 = some calScenario ∧
    axisValue calScenario 0 = -32767 ∧
    axisValue calScenario 128 = 128 ∧
    axisValue calScenario (-127) = -65405 ∧
    (translate pcScenario initState
      [⟨EventType.abs, 0, 0⟩]).1.stick_x = -STICK_PAD_MAX ∧
    STICK_PAD_MAX = 32767 ∧
    axisValue calScenario 0 ≠ 0 ∧
    axisValue calScenario 128 ≠ STICK_PAD_MAX ∧
    axisValue calScenario (-127) ≠ -STICK_PAD_MAX :=
  ⟨rfl, rfl, by decide, by decide, by decide, by decide, rfl, by decide,
   by decide, by decide⟩

/-- Claim C3: the translator applies no clamping at all.  On the stick axis
of the spec's own scenario, raw sample `-127` (inside the declared raw
range) lands at `-65405`, far outside `[-STICK_PAD_MAX, STICK_PAD_MAX]`;
on a trigger axis with raw range `0..255`, raw sample `0` lands at
`-98301`, far outside `[0, TRIGGER_MAX]` (the offset `-3.0` and the
`STICK_PAD_MAX` multiplier make trigger outputs never fit their range). -/
theorem c3_range_violation :
    (translate pcScenario initState
      [⟨EventType.abs, 0, -127⟩]).1.stick_x = -65405 ∧
    ¬(-STICK_PAD_MAX ≤ (-65405 : Int)) ∧
    _parse_config cfgTrig = Except.ok pcTrig ∧
    (translate pcTrig initState [⟨EventType.abs, 2, 0⟩]).1.ltrig = -98301 ∧
    ¬((0 : Int) ≤ -98301 ∧ (-98301 : Int) ≤ TRIGGER_MAX) :=
  ⟨by decide, by decide, rfl, by decide, by decide⟩

/-- Claim C4 counterexample: a config whose `axes` section contains one
entry with a non-integer key next to a well-formed axis entry and a
well-formed button entry does not degrade gracefully: the whole
`_parse_config` raises (there is no per-entry `try` in the axes loop), so
the attach fails instead of leaving the other entries parsed. -/
theorem c4_malformed_axes_key_fatal :
    _parse_config cfgBadKey = Except.error "ValueError" := rfl

/-- Claim C4 (amended): entry-level skipping holds for the buttons section
(a malformed key or unknown logical name skips just that entry) and for axes
entries whose logical axis name is missing or unrecognized; but an axes
entry whose raw code key is not an integer raises out of the whole parse and
fails the attach. -/
theorem c4_skip_granularity :
    (∀ (v : String) (rest : List (Option Int × String)) acc,
      parseButtons ((none, v) :: rest) acc = parseButtons rest acc) ∧
    (∀ (k : Option Int) (v : String) (rest : List (Option Int × String)) acc,
      scButtons v = none →
      parseButtons ((k, v) :: rest) acc = parseButtons rest acc) ∧
    (∀ (code : Int) (v : AxisEntry) (rest : List (Option Int × AxisEntry)) acc,
      v.axis = none →
      parseAxes ((some code, v) :: rest) acc = parseAxes rest acc) ∧
    (∀ (code : Int) (v : AxisEntry) (rest : List (Option Int × AxisEntry)) acc
      (a : String), v.axis = some a → a ∉ inputFields →
      parseAxes ((some code, v) :: rest) acc = parseAxes rest acc) ∧
    (∀ (v : AxisEntry) (rest : List (Option Int × AxisEntry)) acc,
      parseAxes ((none, v) :: rest) acc = Except.error "ValueError") := by
  refine ⟨fun v rest acc => rfl, ?_, ?_, ?_, fun v rest acc => rfl⟩
  · intro k v rest acc hsb
    cases k with
    | none => rfl
    | some c => simp only [parseButtons, hsb]
  · intro code v rest acc hax
    rw [parseAxes]
    simp only [hax]
  · intro code v rest acc a hax hin
    rw [parseAxes]
    simp only [hax, if_neg hin]

/-- Witness for C4 (amended), at concrete entries: a malformed button key, an
unknown button name, an axes entry with a missing axis name, an axes entry
with an unrecognized axis name, and a malformed axes key. -/
theorem c4_witness :
    parseButtons [(none, "A"), (some 3, "B")] [] =
      parseButtons [(some 3, "B")] [] ∧
    parseButtons [(some 9, "NO_SUCH")] [] = parseButtons [] [] ∧
    parseAxes [(some 4, ⟨none, none, none, none⟩)] ([], []) =
      parseAxes [] ([], []) ∧
    parseAxes [(some 4, ⟨some "whammy", some 5, some 5, some 0⟩)] ([], []) =
      parseAxes [] ([], []) ∧
    parseAxes [(none, ⟨some "stick_x", some 0, some 255, some 0⟩)] ([], []) =
      Except.error "ValueError" :=
  ⟨c4_skip_granularity.1 "A" _ _,
   c4_skip_granularity.2.1 (some 9) "NO_SUCH" _ _ rfl,
   c4_skip_granularity.2.2.1 4 _ _ _ rfl,
   c4_skip_granularity.2.2.2.1 4 _ _ _ "whammy" rfl (by decide),
   c4_skip_granularity.2.2.2.2 _ _ _⟩

/-- Concrete attach/attach/detach/attach run: three devices reporting the
same raw name "Gamepad"; the first is detached before the third attaches.
Returns the three allocated identities. -/
def scenarioIds : Option (String × String × String) :=
  match attachDevice emptyDriver "fn1" "Gamepad" pcScenario 8 with
  | none => none
  | some (s1, c1, _) =>
    match attachDevice s1 "fn2" "Gamepad" pcScenario 8 with
    | none => none
    | some (s2, c2, _) =>
      match attachDevice (device_removed s2 "fn1").1 "fn3" "Gamepad"
          pcScenario 8 with
      | none => none
      | some (_, c3, _) => some (c1.id, c2.id, c3.id)

/-- The run above succeeds, the two concurrently-live identities differ, and
the identity released at detach is allocated again to the third device. -/
def scenarioOk : Bool :=
  match scenarioIds with
  | some (a, b, c) => decide (a ≠ b) && decide (a = c)
  | none => false

/-- Claim C5: live identities stay pairwise distinct under attach (the probe
loop returns an identity outside `_used_ids`, which contains every live
identity) and detach; and concretely, two same-name devices get distinct
identities while an identity released at detach can be allocated again. -/
theorem c5_identity_uniqueness :
    (∀ (s : DriverState) (fn name : String) (cfg : ParsedConfig) (fuel : Nat)
      (s' : DriverState) (c : EvController) (evs : List DaemonEvent),
      Inv s → attachDevice s fn name cfg fuel = some (s', c, evs) →
      Inv s' ∧ c.id ∉ liveIds s) ∧
    (∀ (s : DriverState) (fn : String), Inv s → Inv (device_removed s fn).1) ∧
    scenarioOk = true := by
  refine ⟨?_, ?_, by decide⟩
  · intro s fn name cfg fuel s' c evs hInv hAt
    rw [attachDevice] at hAt
    cases hgen : _generate_id name s.usedIds fuel 0 with
    | none => rw [hgen] at hAt; cases hAt
    | some id =>
      rw [hgen] at hAt
      injection hAt with hAt
      cases hAt
      have hid : id ∉ s.usedIds := generate_id_not_mem hgen
      have hidlive : id ∉ liveIds s := by
        intro hmem
        obtain ⟨p, hp, hpe⟩ := List.mem_map.mp hmem
        exact hid (hpe ▸ hInv.2 p hp)
      refine ⟨⟨?_, ?_⟩, hidlive⟩
      · simp only [liveIds, insertA, List.map_cons, List.nodup_cons]
        refine ⟨?_, hInv.1.sublist ((eraseA_sublist _ _).map _)⟩
        intro hmem
        exact hidlive (((eraseA_sublist s.devices fn).map
          (fun p => p.2.id)).subset hmem)
      · intro p hp
        rcases List.mem_cons.mp hp with h | h
        · subst h; exact Finset.mem_insert_self _ _
        · exact Finset.mem_insert_of_mem (hInv.2 p (mem_of_mem_eraseA h).1)
  · intro s fn hInv
    rw [device_removed]
    cases hl : lookupA s.devices fn with
    | none => exact hInv
    | some c =>
      refine ⟨hInv.1.sublist ((eraseA_sublist _ _).map _), ?_⟩
      intro p hp
      obtain ⟨hpd, hpk⟩ := mem_of_mem_eraseA hp
      refine Finset.mem_erase.mpr ⟨?_, hInv.2 p hpd⟩
      have hcmem : (fn, c) ∈ s.devices := lookupA_mem hl
      intro heq
      have hnd : (s.devices.map (fun p : String × EvController => p.2.id)).Nodup :=
        hInv.1
      have hinj := List.inj_on_of_nodup_map hnd
      exact hpk (congrArg Prod.fst (hinj hpd hcmem heq))

/-- The first attach of the concrete run, with its result extracted. -/
def attach1 : Option (DriverState × EvController × List DaemonEvent) :=
  attachDevice emptyDriver "fn1" "Gamepad" pcScenario 8

/-- Default-extracted result of `attach1` (the default is never used:
`attach1` succeeds). -/
def attach1Res : DriverState × EvController × List DaemonEvent :=
  attach1.getD (emptyDriver, ⟨"", pcScenario, initState⟩, [])

/-- Witness for C5: attaching to the empty registry preserves the invariant
and allocates an identity not previously live. -/
theorem c5_witness : Inv attach1Res.1 ∧ attach1Res.2.1.id ∉ liveIds emptyDriver :=
  c5_identity_uniqueness.1 emptyDriver "fn1" "Gamepad" pcScenario 8
    attach1Res.1 attach1Res.2.1 attach1Res.2.2
    ⟨List.nodup_nil, by simp [emptyDriver]⟩ (by decide)

/-- Claim C6: translating an empty event batch returns the very same
controller (same snapshot object: no `_replace` ran, so
`new_state is not self._state` is false) and emits no mapping-engine
notification, for every starting state. -/
theorem c6_empty_batch (c : EvController) : inputOk c [] = (c, none) := rfl

/-- Claim C7: for a mapped axis event, if the magnitude of the calibrated
value (after scale, offset and `STICK_PAD_MAX` multiplication) is at most
the configured dead-zone center of that axis, the new snapshot stores
exactly zero in that axis field. -/
theorem c7_deadzone (pc : ParsedConfig) (st : ControllerInput) (ev : Event)
    (axis : String) (cal : AxisCalibrationData)
    (ht : ev.type = EventType.abs)
    (ha : lookupA pc.evdev_to_axis ev.code = some axis)
    (hc : lookupA pc.calibrations ev.code = some cal)
    (hdz : |calibratedRaw cal ev.value| ≤ cal.center) :
    (translate pc st [ev]).1 = setField st axis 0 := by
  obtain ⟨t, code, value⟩ := ev
  dsimp only at ht ha hc hdz
  subst ht
  obtain ⟨hdz1, hdz2⟩ := abs_le.mp hdz
  rw [translate]
  simp only [List.foldl_cons, List.foldl_nil]
  rw [applyEvent]
  simp only [ha, hc, axisValue]
  rw [if_pos ⟨hdz1, hdz2⟩]

/-- Calibration for the C7 witness: a stick-class axis with a wide
configured dead-zone center. -/
def cal7 : AxisCalibrationData :=
  ⟨PyFloat.div (PyFloat.ofInt (-2)) (PyFloat.ofInt (0 - 255)),
   PyFloat.ofInt (-1), 1000⟩

/-- Parsed config for the C7 witness. -/
def pc7 : ParsedConfig := ⟨[], [(0, "stick_x")], [(0, cal7)]⟩

/-- Axis event for the C7 witness: raw sample 130 calibrates to 642, inside
the dead zone of 1000. -/
def ev7 : Event := ⟨EventType.abs, 0, 130⟩

/-- Witness for C7: the concrete in-dead-zone sample is stored as zero. -/
theorem c7_witness :
    |calibratedRaw cal7 130| ≤ (1000 : Int) ∧
    (translate pc7 initState [ev7]).1 = setField initState "stick_x" 0 :=
  ⟨by decide, c7_deadzone pc7 initState ev7 "stick_x" cal7 rfl rfl rfl
    (by decide)⟩

/-- Claim C8: a transport error on read triggers exactly one
`remove_controller` call on the daemon, deletes the device's table entry,
releases its identity (no longer in `_used_ids`), closes exactly that
device, notifies no mapper, and a later scan's freshness test treats the
same handle as a new discovery. -/
theorem c8_transport_error (s : DriverState) (fn : String) (c : EvController)
    (hc : lookupA s.devices fn = some c) :
    (inputCallback s fn (Except.error ())).daemonEvents =
      [DaemonEvent.removeController c.id] ∧
    lookupA (inputCallback s fn (Except.error ())).state.devices fn = none ∧
    c.id ∉ (inputCallback s fn (Except.error ())).state.usedIds ∧
    (inputCallback s fn (Except.error ())).closedDevices = [fn] ∧
    (inputCallback s fn (Except.error ())).mapperNotification = none ∧
    scanConsiders (inputCallback s fn (Except.error ())).state fn = true := by
  simp [inputCallback, hc, device_removed, scanConsiders,
    lookupA_eraseA_self, Finset.not_mem_erase]

/-- Controller for the C8/C10 witnesses. -/
def cW : EvController := ⟨"evDEAD", pcScenario, initState⟩

/-- Registry holding exactly `cW` for the C8 witness. -/
def sW : DriverState := ⟨[("fnW", cW)], {"evDEAD"}⟩

/-- Witness for C8 at a concrete one-device registry. -/
theorem c8_witness :
    (inputCallback sW "fnW" (Except.error ())).daemonEvents =
      [DaemonEvent.removeController cW.id] ∧
    lookupA (inputCallback sW "fnW" (Except.error ())).state.devices "fnW" =
      none ∧
    cW.id ∉ (inputCallback sW "fnW" (Except.error ())).state.usedIds ∧
    (inputCallback sW "fnW" (Except.error ())).closedDevices = ["fnW"] ∧
    (inputCallback sW "fnW" (Except.error ())).mapperNotification = none ∧
    scanConsiders (inputCallback sW "fnW" (Except.error ())).state "fnW" =
      true :=
  c8_transport_error sW "fnW" cW rfl

/-- Claim C9: every successful attach installs the all-zero snapshot: empty
button bitmask, both triggers zero, all stick/pad coordinates zero. -/
theorem c9_fresh_state_zero (s : DriverState) (fn name : String)
    (cfg : ParsedConfig) (fuel : Nat) (s' : DriverState) (c : EvController)
    (evs : List DaemonEvent)
    (h : attachDevice s fn name cfg fuel = some (s', c, evs)) :
    c.state = initState ∧ initState.buttons = 0 ∧ initState.ltrig = 0 ∧
    initState.rtrig = 0 ∧ initState.stick_x = 0 ∧ initState.stick_y = 0 ∧
    initState.lpad_x = 0 ∧ initState.lpad_y = 0 ∧ initState.rpad_x = 0 ∧
    initState.rpad_y = 0 := by
  rw [attachDevice] at h
  cases hgen : _generate_id name s.usedIds fuel 0 with
  | none => rw [hgen] at h; cases h
  | some id =>
    rw [hgen] at h
    injection h with h
    cases h
    exact ⟨rfl, rfl, rfl, rfl, rfl, rfl, rfl, rfl, rfl, rfl⟩

/-- Witness for C9 at the concrete first attach of the run. -/
theorem c9_witness :
    attach1Res.2.1.state = initState ∧ initState.buttons = 0 ∧
    initState.ltrig = 0 ∧ initState.rtrig = 0 ∧ initState.stick_x = 0 ∧
    initState.stick_y = 0 ∧ initState.lpad_x = 0 ∧ initState.lpad_y = 0 ∧
    initState.rpad_x = 0 ∧ initState.rpad_y = 0 :=
  c9_fresh_state_zero emptyDriver "fn1" "Gamepad" pcScenario 8
    attach1Res.1 attach1Res.2.1 attach1Res.2.2 (by decide)

/-- Claim C10: removal of a device handle that is not in the device table is
a complete no-op: same state (table and identity set untouched), no daemon
notification, nothing closed. -/
theorem c10_removed_absent_noop (s : DriverState) (fn : String)
    (h : lookupA s.devices fn = none) :
    device_removed s fn = (s, [], []) := by
  simp only [device_removed, h]

/-- Witness for C10: removing an unknown handle from the empty registry. -/
theorem c10_witness : device_removed emptyDriver "nodev" = (emptyDriver, [], []) :=
  c10_removed_absent_noop emptyDriver "nodev" rfl

end EvdevDrv
